import Mathlib

/-!
Shallow embedding of the SillyTavern Character Memory Manager extension.

JavaScript strings are modelled as `List Char`; JS-level details
(truthiness of the empty string, `substring` clamping negative indices to 0,
regex splitting) are embedded explicitly below, following the source files.
The wall clock (`new Date()` / `formatDate`) is passed in as an explicit
`now : List Char` oracle, and the outcomes of host/network calls are passed
in as explicit `Except`/`Option` values, so every definition is executable.
-/

namespace CMM

/-- Embedding of a JavaScript string as its list of characters. -/
def str (s : String) : List Char := s.data

/-- The JavaScript whitespace class used by `trim` and by the regex class
`\s`, restricted to its ASCII part. -/
def isWs (c : Char) : Bool :=
  c == ' ' || c == '\t' || c == '\n' || c == '\r' || c == '\x0b' || c == '\x0c'

/-- JavaScript `s.trim()`: strip leading and trailing whitespace. -/
def jsTrim (l : List Char) : List Char :=
  ((l.dropWhile isWs).reverse.dropWhile isWs).reverse

/-- JavaScript `s.toLowerCase()`, restricted to the ASCII case map. -/
def jsLower (l : List Char) : List Char := l.map Char.toLower

/-- `needle` occurs at the very start of `hay`. -/
def leadsWith : (needle hay : List Char) → Bool
  | [], _ => true
  | _ :: _, [] => false
  | a :: as, b :: bs => a == b && leadsWith as bs

/-- JavaScript `hay.includes(needle)`: substring containment. -/
def jsIncludes : (hay needle : List Char) → Bool
  | [], needle => needle.isEmpty
  | b :: rest, needle => leadsWith needle (b :: rest) || jsIncludes rest needle

/-- Worker for `summary.split(/\.\s+|\n+/)` (memory-manager module,
`isNewInformation`): scan left to right; a separator match is either a
period followed by a maximal non-empty whitespace run (alternative
`\.\s+`), or a maximal non-empty run of newlines (alternative `\n+`).
`acc` holds the characters of the current field in reverse. The `fuel`
argument only makes the recursion structural: every step consumes at least
one input character, so any `fuel` exceeding the input length is never
exhausted. -/
def splitAux : Nat → List Char → List Char → List (List Char)
  | _, [], acc => [acc.reverse]
  | 0, l, acc => [acc.reverse ++ l]
  | fuel + 1, '.' :: c :: rest, acc =>
      if isWs c then acc.reverse :: splitAux fuel ((c :: rest).dropWhile isWs) []
      else splitAux fuel (c :: rest) ('.' :: acc)
  | fuel + 1, '\n' :: rest, acc =>
      acc.reverse :: splitAux fuel (rest.dropWhile (fun d => d == '\n')) []
  | fuel + 1, c :: rest, acc => splitAux fuel rest (c :: acc)

/-- `summary.split(/\.\s+|\n+/)` from the memory-manager module. -/
def splitSummary (summary : List Char) : List (List Char) :=
  splitAux (summary.length + 1) summary []

/-- Candidate sentences of the memory-manager module's `isNewInformation`:
`summary.split(/\.\s+|\n+/).filter(item => item && item.trim().length > 10)`. -/
def summaryItems (summary : List Char) : List (List Char) :=
  (splitSummary summary).filter
    (fun item => !item.isEmpty && decide (10 < (jsTrim item).length))

/-- The per-item novelty test of the memory-manager module: keep an item iff
its lower-cased trimmed text does not occur in the lower-cased notes, and
neither does that text with its last 5 characters removed
(`itemLower.substring(0, itemLower.length - 5)`; JS clamps a negative end
index to 0, which `Nat` truncated subtraction mirrors). -/
def itemIsNew (characterNotes item : List Char) : Bool :=
  let itemLower := jsTrim (jsLower item)
  let notesLower := jsLower characterNotes
  !(jsIncludes notesLower itemLower) &&
  !(jsIncludes notesLower (itemLower.take (itemLower.length - 5)))

/-- `summaryItems.filter(...)` — the items that survive the novelty test. -/
def newItems (summary characterNotes : List Char) : List (List Char) :=
  (summaryItems summary).filter (itemIsNew characterNotes)

/-- The timestamped bullet block built by the memory-manager module:
header plus one `• <item.trim()>.\n` line per item. -/
def formatBlock (now : List Char) (items : List (List Char)) : List Char :=
  str "\n\n--- Memory Update (" ++ now ++ str ") ---\n" ++
  items.foldl (fun acc item => acc ++ str "• " ++ jsTrim item ++ str ".\n") []

/-- `isNewInformation(summary, characterNotes, userPersona)` from the
memory-manager module: `null` for an empty/whitespace summary; the whole
summary when the existing notes are empty/whitespace; otherwise the
formatted block of surviving items, or `null` when none survive.
`userPersona` is accepted but not consulted by this variant;
`now` is the formatted current date. -/
def isNewInformation (summary characterNotes userPersona now : List Char) :
    Option (List Char) :=
  if (jsTrim summary).length = 0 then none
  else if (jsTrim characterNotes).length = 0 then some summary
  else
    let items := newItems summary characterNotes
    if items.isEmpty then none
    else
      let _ := userPersona
      some (formatBlock now items)

/-- Decimal rendering of a JS number (always a `Nat` here), as produced by
the implicit string coercion of `messages.length` in template substitution. -/
def natStr (n : Nat) : List Char := (Nat.repr n).data

/-- JavaScript `s.replace(/pat/g, repl)` for a literal non-empty pattern:
scan left to right; at a match, emit `repl` and resume after the matched
characters of the original string (the replacement is not rescanned).
The `fuel` argument only makes the recursion structural: every step
consumes at least one input character. -/
def replaceAllAux (pat repl : List Char) : Nat → List Char → List Char
  | _, [] => []
  | 0, l => l
  | fuel + 1, c :: rest =>
      if leadsWith pat (c :: rest) && !pat.isEmpty then
        repl ++ replaceAllAux pat repl fuel ((c :: rest).drop pat.length)
      else c :: replaceAllAux pat repl fuel rest

/-- JavaScript `input.replace(/pat/g, repl)` with a literal pattern. -/
def replaceAll (pat repl input : List Char) : List Char :=
  replaceAllAux pat repl (input.length + 1) input

/-- The user-name placeholder of the prompt template. -/
def userPh : List Char := str "\x7b\x7buser\x7d\x7d"

/-- The character-name placeholder of the prompt template. -/
def charPh : List Char := str "\x7b\x7bchar\x7d\x7d"

/-- The message-count placeholder of the prompt template. -/
def countPh : List Char := str "\x7b\x7bcount\x7d\x7d"

/-- A chat message as read by the summarization service
(`msg.is_user`, `msg.mes`). -/
structure ChatMessage where
  is_user : Bool
  mes : List Char
deriving DecidableEq, Repr

/-- JavaScript `array.join('\n')`. -/
def joinLines : List (List Char) → List Char
  | [] => []
  | [l] => l
  | l :: rest => l ++ '\n' :: joinLines rest

/-- The message formatting of `summarizeChat` (summarization-service.js):
each message becomes `"<speaker>: <text>"`, joined by newlines, where the
speaker is the user name for `is_user` messages and the character name
otherwise. -/
def formatMessages (messages : List ChatMessage)
    (characterName userName : List Char) : List Char :=
  joinLines (messages.map fun msg =>
    (if msg.is_user then userName else characterName) ++ str ": " ++ msg.mes)

/-- The placeholder substitution of `summarizeChat`
(summarization-service.js): global replacement of the char placeholder by
the character name, then the user placeholder by the user name, then the
count placeholder by `messages.length`, in that order. -/
def buildSystemMessage (promptTemplate characterName userName : List Char)
    (count : Nat) : List Char :=
  replaceAll countPh (natStr count)
    (replaceAll userPh userName
      (replaceAll charPh characterName promptTemplate))

/-- Typed failures of the summarization service: an HTTP transport or JSON
failure, a non-ok HTTP status, or the thrown
`'Unexpected API response format'`. -/
inductive JsError where
  | transport (msg : List Char)
  | apiError (status : Nat)
  | unexpectedFormat
deriving DecidableEq, Repr

/-- The `message` member of a chat-completions choice. -/
structure ApiMessage where
  content : List Char
deriving DecidableEq, Repr

/-- One element of the `choices` array of an external-model response. -/
structure ApiChoice where
  message : Option ApiMessage
  text : Option (List Char)
deriving DecidableEq, Repr

/-- A JSON response body from the external endpoint; only the fields the
parsers of this repository inspect are modelled, absent fields are `none`. -/
structure ApiResponse where
  choices : Option (List ApiChoice)
  output : Option (List Char)
  response : Option (List Char)
  text : Option (List Char)
deriving DecidableEq, Repr

/-- The response-shape handling of `callExternalModel`
(summarization-service.js): when `data.choices` is a non-empty array,
return `choices[0].message.content` if the first choice carries a message,
else `choices[0].text` if that is truthy (non-empty); in every other case
throw `'Unexpected API response format'`. -/
def parseExternalResponse (data : ApiResponse) : Except JsError (List Char) :=
  match data.choices with
  | some (c :: _) =>
      match c.message with
      | some m => .ok m.content
      | none =>
          match c.text with
          | some t => if t.isEmpty then .error .unexpectedFormat else .ok t
          | none => .error .unexpectedFormat
  | _ => .error .unexpectedFormat

/-- The response shapes `callExternalModel` accepts: a non-empty `choices`
array whose first element carries a `message`, or whose first element has a
truthy `text`. -/
def acceptedShape (data : ApiResponse) : Bool :=
  match data.choices with
  | some (c :: _) =>
      c.message.isSome ||
      (match c.text with
       | some t => !t.isEmpty
       | none => false)
  | _ => false

/-- `callExternalModel` (summarization-service.js): the POST and the JSON
decoding of its body are summarised by `fetchResult` (a non-ok status or a
network/JSON failure arrives as `.error`); the body is then parsed, and the
surrounding catch logs and rethrows the same error unchanged. -/
def callExternalModel (fetchResult : Except JsError ApiResponse) :
    Except JsError (List Char) :=
  match fetchResult with
  | .error e => .error e
  | .ok data => parseExternalResponse data

/-- The object returned by the host's `generateQuietPrompt` call; the code
reads `response.generation || ''`. -/
structure GenResult where
  generation : Option (List Char)
deriving DecidableEq, Repr

/-- The try-block of `callCurrentModel` (summarization-service.js): when
`generateQuietPrompt` is not a function (`gqp = none`), fall back to a
popup and return `result || ''`; otherwise call it and return
`response.generation || ''`. A thrown error propagates out of the body. -/
def callCurrentModelBody (gqp : Option (Except JsError GenResult))
    (popup : Except JsError (Option (List Char))) : Except JsError (List Char) :=
  match gqp with
  | none =>
      match popup with
      | .error e => .error e
      | .ok r => .ok (r.getD [])
  | some (.error e) => .error e
  | some (.ok res) => .ok (res.generation.getD [])

/-- `callCurrentModel` (summarization-service.js): the catch block swallows
every error from the body, logs it, and returns the empty string. -/
def callCurrentModel (gqp : Option (Except JsError GenResult))
    (popup : Except JsError (Option (List Char))) : Except JsError (List Char) :=
  match callCurrentModelBody gqp popup with
  | .ok s => .ok s
  | .error _ => .ok []

/-- `summarizeChat` (summarization-service.js): format the messages, build
the system message by placeholder substitution, then dispatch to the
external endpoint when `useSeparateModel` is set and the endpoint is a
non-empty string, else to the host's current model. Each host/network call
outcome is supplied as a function of the (system, user) content actually
passed to it; the outer catch logs and rethrows the same error. -/
def summarizeChat (messages : List ChatMessage)
    (characterName userName promptTemplate : List Char)
    (useSeparateModel : Bool) (modelEndpoint apiKey : List Char)
    (fetchOracle : List Char → List Char → Except JsError ApiResponse)
    (gqpOracle : Option (List Char → List Char → Except JsError GenResult))
    (popupOracle : List Char → List Char → Except JsError (Option (List Char))) :
    Except JsError (List Char) :=
  let formattedMessages := formatMessages messages characterName userName
  let systemMessage :=
    buildSystemMessage promptTemplate characterName userName messages.length
  let _ := apiKey
  if useSeparateModel && !modelEndpoint.isEmpty then
    callExternalModel (fetchOracle systemMessage formattedMessages)
  else
    callCurrentModel (gqpOracle.map fun g => g systemMessage formattedMessages)
      (popupOracle systemMessage formattedMessages)

/-- The `data` member of a character card; only the notes field is
modelled. -/
structure CharData where
  character_notes : Option (List Char)
deriving DecidableEq, Repr

/-- A character record as the memory-manager module sees it. -/
structure Character where
  avatar : List Char
  data : Option CharData
deriving DecidableEq, Repr

/-- `character.data.character_notes = updatedNotes`, creating the `data`
object first when it is absent. -/
def setNotes (c : Character) (notes : List Char) : Character :=
  { c with data := some ⟨some notes⟩ }

/-- The in-place mutation of the object returned by `characters.find`:
replace the first character whose avatar matches. -/
def updateFirst (chars : List Character) (characterId notes : List Char) :
    List Character :=
  match chars with
  | [] => []
  | c :: rest =>
      if c.avatar == characterId then setNotes c notes :: rest
      else c :: updateFirst rest characterId notes

/-- `characters.find(char => char.avatar === characterId)`. -/
def jsFind : List Character → List Char → Option Character
  | [], _ => none
  | c :: rest, characterId =>
      if c.avatar == characterId then some c else jsFind rest characterId

/-- `updateCharacterNotes` (memory-manager module): bail out (false) on a
falsy characterId or newInformation or when no character matches; otherwise
set the found character's notes to `currentNotes + newInformation`
(`newInformation` alone when `currentNotes` is falsy) and save.
`saveThrows` is the outcome of the host save call, whose failure is caught
and turned into a false return after the in-memory notes were already set.
Returns the success flag and the character array after the call. -/
def updateCharacterNotes (chars : List Character)
    (characterId currentNotes newInformation : List Char) (saveThrows : Bool) :
    Bool × List Character :=
  if characterId.isEmpty || newInformation.isEmpty then (false, chars)
  else
    match jsFind chars characterId with
    | none => (false, chars)
    | some _ =>
        let updatedNotes :=
          if !currentNotes.isEmpty then currentNotes ++ newInformation
          else newInformation
        let chars2 := updateFirst chars characterId updatedNotes
        if saveThrows then (false, chars2) else (true, chars2)

/-- The extension settings object (index.js). -/
structure Settings where
  enabled : Bool
  messagesBeforeSummarize : Nat
  showNotifications : Bool
  useSeparateModel : Bool
  separateModelEndpoint : List Char
  separateModelApiKey : List Char
  summarizationPrompt : List Char
deriving DecidableEq, Repr

/-- The module-level mutable variables of index.js. -/
structure MMState where
  messageCounter : Nat
  processingMemory : Bool
deriving DecidableEq, Repr

/-- The host context consumed by `checkAndUpdateMemories` (index.js). -/
structure Context where
  chat : List ChatMessage
  name1 : List Char
  name2 : List Char
  characters : List Character
  characterId : Nat
  persona_description : List Char
deriving DecidableEq, Repr

/-- `context.characters[context.characterId]?.data?.character_notes || ""`. -/
def contextNotes (ctx : Context) : List Char :=
  match ctx.characters[ctx.characterId]? with
  | some ch =>
      match ch.data with
      | some d => d.character_notes.getD []
      | none => []
  | none => []

/-- The observable outcome of one invocation of `checkAndUpdateMemories`:
the final counter/guard state, whether the summarization call was made, and
the newInformation handed to `updateCharacterNotes` (when the cycle got
there and the diff was truthy). -/
structure RunResult where
  state : MMState
  summarizeCalled : Bool
  updateCall : Option (List Char)
deriving DecidableEq, Repr

/-- `checkAndUpdateMemories` (index.js), one complete invocation run to
completion. `ctx` is the `getContext()` result (`none` for a null
context), `summarizeResult` the outcome of the awaited `summarizeChat`
call, `now` the formatted date used by the notes diff. The guard is set
when the threshold fires and released in the `finally` block, so the final
state records it as false on both the success and the error path; the
`catch` path skips the counter reset, which sits at the end of the `try`
block. -/
def checkAndUpdateMemories (settings : Settings) (ctx : Option Context)
    (summarizeResult : Except JsError (List Char)) (now : List Char)
    (st : MMState) : RunResult :=
  if st.processingMemory || !settings.enabled then ⟨st, false, none⟩
  else
    match ctx with
    | none => ⟨st, false, none⟩
    | some c =>
        if c.chat.isEmpty then ⟨st, false, none⟩
        else
          let counter := st.messageCounter + 1
          if settings.messagesBeforeSummarize ≤ counter then
            match summarizeResult with
            | .ok summarizedChat =>
                let newInformation :=
                  isNewInformation summarizedChat (contextNotes c)
                    c.persona_description now
                let updateCall :=
                  match newInformation with
                  | some s => if s.isEmpty then none else some s
                  | none => none
                ⟨⟨0, false⟩, true, updateCall⟩
            | .error _ => ⟨⟨counter, false⟩, true, none⟩
          else ⟨⟨counter, st.processingMemory⟩, false, none⟩

/-- The prompt template of the C5 example. -/
def exTemplateC5 : List Char :=
  str "Summarize " ++ countPh ++ str " msgs for " ++ userPh ++ str " and " ++ charPh

/-- The five chat messages of the C5 example. -/
def exMessagesC5 : List ChatMessage :=
  [⟨true, str "m1"⟩, ⟨false, str "m2"⟩, ⟨true, str "m3"⟩,
   ⟨false, str "m4"⟩, ⟨true, str "m5"⟩]

/-- The host-model path of `summarizeChat` at a concrete input whose
generation call throws. -/
def exHostRun : Except JsError (List Char) :=
  summarizeChat [⟨true, str "hello there"⟩] (str "Zee") (str "Al") (str "p")
    false (str "") (str "")
    (fun _ _ => .error (.transport (str "unused")))
    (some (fun _ _ => .error (.transport (str "model down"))))
    (fun _ _ => .error (.transport (str "unused")))

/-- The settings of the C1 counterexample: enabled, threshold 2. -/
def exSettingsC1 : Settings := ⟨true, 2, true, false, [], [], []⟩

/-- The context of the C1 counterexample: a one-message chat. -/
def exCtxC1 : Context := ⟨[⟨true, str "hello"⟩], str "Al", str "Zee", [], 0, []⟩

example : splitSummary (str "a wage. b\nc") = [str "a wage", str "b", str "c"] := by
  decide

example : jsTrim (str "  hi  ") = str "hi" := by decide

example : jsIncludes (str "abcd") (str "bc") = true := by decide

/-- C3: for every summary that is non-empty after trimming, if the existing
character notes are empty or whitespace-only, `isNewInformation` returns the
entire summary as the new information, for every persona argument. -/
theorem isNewInformation_empty_notes (summary characterNotes userPersona now : List Char)
    (hsum : (jsTrim summary).length ≠ 0)
    (hnotes : (jsTrim characterNotes).length = 0) :
    isNewInformation summary characterNotes userPersona now = some summary := by
  simp [isNewInformation, hsum, hnotes]

theorem isNewInformation_empty_notes_witness :
    (jsTrim (str "Alice met Bob at the fair")).length ≠ 0 ∧
    (jsTrim (str "   ")).length = 0 ∧
    isNewInformation (str "Alice met Bob at the fair") (str "   ")
      (str "any persona") (str "04/01/2025 10:00") =
      some (str "Alice met Bob at the fair") :=
  ⟨by decide, by decide,
   isNewInformation_empty_notes _ _ _ _ (by decide) (by decide)⟩

/-- C4: when the notes contain (case-insensitively) the single candidate
sentence of the summary, `isNewInformation` returns nothing; moreover no
candidate whose lower-cased trimmed text occurs in the lower-cased notes
ever survives into `newItems`. -/
theorem isNewInformation_contained_sentence_none
    (summary notes persona now s : List Char)
    (hnotes : (jsTrim notes).length ≠ 0)
    (honly : summaryItems summary = [s])
    (hin : jsIncludes (jsLower notes) (jsTrim (jsLower s)) = true) :
    isNewInformation summary notes persona now = none ∧
    ∀ item ∈ newItems summary notes,
      jsIncludes (jsLower notes) (jsTrim (jsLower item)) = false := by
  have hs : itemIsNew notes s = false := by
    simp [itemIsNew, hin]
  have hnew : newItems summary notes = [] := by
    unfold newItems
    rw [honly]
    simp [List.filter, hs]
  refine ⟨?_, ?_⟩
  · simp [isNewInformation, hnotes, hnew]
  · intro item hmem
    rw [hnew] at hmem
    simp at hmem

theorem isNewInformation_contained_sentence_none_witness :
    summaryItems (str "Alice visited the market") = [str "Alice visited the market"] ∧
    isNewInformation (str "Alice visited the market")
      (str "Earlier, ALICE VISITED THE MARKET indeed.") (str "") (str "d") = none :=
  ⟨by decide,
   (isNewInformation_contained_sentence_none (str "Alice visited the market")
     (str "Earlier, ALICE VISITED THE MARKET indeed.") (str "") (str "d")
     (str "Alice visited the market")
     (by decide) (by decide) (by decide)).1⟩

/-- C10: in the memory-manager variant, a candidate is also excluded when
its lower-cased trimmed text with the last 5 characters removed occurs in
the lower-cased notes, so a sentence absent from the notes can still be
omitted from the result. -/
theorem newItems_excludes_truncated_match (summary notes item : List Char)
    (hpre : jsIncludes (jsLower notes)
      ((jsTrim (jsLower item)).take ((jsTrim (jsLower item)).length - 5)) = true) :
    item ∉ newItems summary notes := by
  intro hmem
  have h := (List.mem_filter.mp hmem).2
  simp [itemIsNew, hpre] at h

theorem parseExternalResponse_of_not_accepted (data : ApiResponse)
    (h : acceptedShape data = false) :
    parseExternalResponse data = .error .unexpectedFormat := by
  cases hch : data.choices with
  | none => simp [parseExternalResponse, hch]
  | some l =>
      cases l with
      | nil => simp [parseExternalResponse, hch]
      | cons c cs =>
          cases hm : c.message with
          | some m => simp [acceptedShape, hch, hm] at h
          | none =>
              cases ht : c.text with
              | none => simp [parseExternalResponse, hch, hm, ht]
              | some t =>
                  have hempty : t.isEmpty = true := by
                    simpa [acceptedShape, hch, hm, ht] using h
                  simp [parseExternalResponse, hch, hm, ht, hempty]

theorem callCurrentModel_never_errors (gqp : Option (Except JsError GenResult))
    (popup : Except JsError (Option (List Char))) :
    ∃ s, callCurrentModel gqp popup = .ok s := by
  unfold callCurrentModel
  cases h : callCurrentModelBody gqp popup with
  | ok s => exact ⟨s, rfl⟩
  | error e => exact ⟨[], rfl⟩

example : buildSystemMessage (str "a " ++ userPh ++ str "!") (str "Zee") (str "Al") 3 =
    str "a Al!" := by decide

theorem newItems_excludes_truncated_match_witness :
    (str "alice loves programming") ∈ summaryItems (str "alice loves programming") ∧
    jsIncludes (jsLower (str "She said: alice loves programs daily."))
      (jsTrim (jsLower (str "alice loves programming"))) = false ∧
    (str "alice loves programming") ∉
      newItems (str "alice loves programming")
        (str "She said: alice loves programs daily.") ∧
    isNewInformation (str "alice loves programming")
      (str "She said: alice loves programs daily.") (str "") (str "d") = none :=
  ⟨by decide, by decide,
   newItems_excludes_truncated_match _ _ _ (by decide), by decide⟩

/-- C5: summarizeChat substitutes all occurrences of the user, char and
count placeholders in the prompt template with the user name, the character
name and messages.length; in particular the template
"Summarize ((count)) msgs for ((user)) and ((char))" (with brace
delimiters) over 5 messages, user "Al" and char "Zee" reaches the model
call as "Summarize 5 msgs for Al and Zee", and repeated placeholders are
all substituted. -/
theorem summarizeChat_substitutes_placeholders :
    (∀ (fetchOracle : List Char → List Char → Except JsError ApiResponse)
       (gqpOracle : Option (List Char → List Char → Except JsError GenResult))
       (popupOracle : List Char → List Char → Except JsError (Option (List Char))),
      summarizeChat exMessagesC5 (str "Zee") (str "Al") exTemplateC5 true
        (str "http:/x") (str "") fetchOracle gqpOracle popupOracle =
      callExternalModel (fetchOracle (str "Summarize 5 msgs for Al and Zee")
        (formatMessages exMessagesC5 (str "Zee") (str "Al")))) ∧
    buildSystemMessage exTemplateC5 (str "Zee") (str "Al") 5 =
      str "Summarize 5 msgs for Al and Zee" ∧
    buildSystemMessage
      (charPh ++ charPh ++ userPh ++ userPh ++ countPh ++ countPh)
      (str "Zee") (str "Al") 5 = str "ZeeZeeAlAl55" := by
  refine ⟨?_, by decide, by decide⟩
  intro fetchOracle gqpOracle popupOracle
  rfl

/-- C6 fails on the code: a response of shape `(output: "hello")` is
rejected by the parser with the typed 'unexpected format' error instead of
being accepted with "hello". -/
theorem parseExternalResponse_rejects_output_shape :
    parseExternalResponse ⟨none, some (str "hello"), none, none⟩ =
      .error .unexpectedFormat := rfl

/-- C6 amended: the parser accepts exactly two shapes — it returns
choices[0].message.content when the first choice carries a message, else
choices[0].text when that is a non-empty string — and fails with the typed
'unexpected format' error for every response matching neither, including
the (output), (response) and (text) shapes. -/
theorem parseExternalResponse_shapes (data : ApiResponse) :
    (∀ c cs m, data.choices = some (c :: cs) → c.message = some m →
      parseExternalResponse data = .ok m.content) ∧
    (∀ c cs t, data.choices = some (c :: cs) → c.message = none →
      c.text = some t → t ≠ [] →
      parseExternalResponse data = .ok t) ∧
    (acceptedShape data = false →
      parseExternalResponse data = .error .unexpectedFormat) := by
  refine ⟨?_, ?_, parseExternalResponse_of_not_accepted data⟩
  · intro c cs m hch hm
    simp [parseExternalResponse, hch, hm]
  · intro c cs t hch hm ht hne
    have hef : t.isEmpty = false := by
      cases t with
      | nil => exact absurd rfl hne
      | cons a t2 => rfl
    simp [parseExternalResponse, hch, hm, ht, hef]

theorem parseExternalResponse_shapes_witness :
    parseExternalResponse ⟨some [⟨some ⟨str "hi"⟩, none⟩], none, none, none⟩ =
      .ok (str "hi") ∧
    parseExternalResponse ⟨none, none, some (str "r"), none⟩ =
      .error .unexpectedFormat :=
  ⟨(parseExternalResponse_shapes
      ⟨some [⟨some ⟨str "hi"⟩, none⟩], none, none, none⟩).1
      ⟨some ⟨str "hi"⟩, none⟩ [] ⟨str "hi"⟩ rfl rfl,
   (parseExternalResponse_shapes ⟨none, none, some (str "r"), none⟩).2.2 rfl⟩

/-- C7 fails on the code: in the host-model path a throwing generation call
is swallowed by callCurrentModel, and summarizeChat returns the empty
string — a value, not an error. -/
theorem summarizeChat_host_error_swallowed : exHostRun = .ok [] := rfl

/-- C7 amended: with the external endpoint configured, summarizeChat makes
the one external call and propagates its transport failure as the same
single typed error, and a parse failure as the typed format error; the
host-model path never propagates an error — it returns a string even when
the generation call is unavailable or throws. -/
theorem summarizeChat_error_paths (messages : List ChatMessage)
    (characterName userName promptTemplate modelEndpoint apiKey : List Char)
    (fetchOracle : List Char → List Char → Except JsError ApiResponse)
    (gqpOracle : Option (List Char → List Char → Except JsError GenResult))
    (popupOracle : List Char → List Char → Except JsError (Option (List Char)))
    (hend : modelEndpoint ≠ []) :
    (∀ e, fetchOracle
        (buildSystemMessage promptTemplate characterName userName messages.length)
        (formatMessages messages characterName userName) = .error e →
      summarizeChat messages characterName userName promptTemplate true
        modelEndpoint apiKey fetchOracle gqpOracle popupOracle = .error e) ∧
    (∀ data, fetchOracle
        (buildSystemMessage promptTemplate characterName userName messages.length)
        (formatMessages messages characterName userName) = .ok data →
      acceptedShape data = false →
      summarizeChat messages characterName userName promptTemplate true
        modelEndpoint apiKey fetchOracle gqpOracle popupOracle =
        .error .unexpectedFormat) ∧
    (∃ s, summarizeChat messages characterName userName promptTemplate false
        modelEndpoint apiKey fetchOracle gqpOracle popupOracle = .ok s) := by
  have hne : modelEndpoint.isEmpty = false := by
    cases modelEndpoint with
    | nil => exact absurd rfl hend
    | cons a l => rfl
  refine ⟨?_, ?_, ?_⟩
  · intro e hf
    simp [summarizeChat, hne, callExternalModel, hf]
  · intro data hf hacc
    simp [summarizeChat, hne, callExternalModel, hf,
      parseExternalResponse_of_not_accepted data hacc]
  · obtain ⟨s, hs⟩ := callCurrentModel_never_errors
      (gqpOracle.map fun g => g
        (buildSystemMessage promptTemplate characterName userName messages.length)
        (formatMessages messages characterName userName))
      (popupOracle
        (buildSystemMessage promptTemplate characterName userName messages.length)
        (formatMessages messages characterName userName))
    exact ⟨s, by simpa [summarizeChat] using hs⟩

theorem summarizeChat_error_paths_witness :
    summarizeChat [⟨true, str "hi"⟩] (str "Zee") (str "Al") (str "p") true
      (str "http:/x") (str "") (fun _ _ => .error (.apiError 500)) none
      (fun _ _ => .ok none) = .error (.apiError 500) :=
  (summarizeChat_error_paths [⟨true, str "hi"⟩] (str "Zee") (str "Al")
    (str "p") (str "http:/x") (str "") (fun _ _ => .error (.apiError 500))
    none (fun _ _ => .ok none) (by decide)).1 (.apiError 500) rfl

theorem jsFind_updateFirst (chars : List Character) (characterId notes : List Char)
    (c0 : Character) (h : jsFind chars characterId = some c0) :
    jsFind (updateFirst chars characterId notes) characterId =
      some (setNotes c0 notes) := by
  induction chars with
  | nil => simp [jsFind] at h
  | cons c rest ih =>
      unfold jsFind at h
      unfold updateFirst
      by_cases hc : (c.avatar == characterId) = true
      · rw [if_pos hc] at h
        cases h
        rw [if_pos hc]
        simp [jsFind, setNotes, hc]
      · rw [if_neg hc] at h
        rw [if_neg hc]
        unfold jsFind
        rw [if_neg hc]
        exact ih h

/-- C8: a successful updateCharacterNotes persists exactly
currentNotes ++ newInformation as the found character's notes — no
reordering, no trimming of existing content, no truncation. -/
theorem updateCharacterNotes_appends (chars : List Character)
    (characterId currentNotes newInformation : List Char) (saveThrows : Bool)
    (h : (updateCharacterNotes chars characterId currentNotes newInformation
      saveThrows).1 = true) :
    ∃ c, jsFind (updateCharacterNotes chars characterId currentNotes
        newInformation saveThrows).2 characterId = some c ∧
      c.data = some ⟨some (currentNotes ++ newInformation)⟩ := by
  by_cases hid : (characterId.isEmpty || newInformation.isEmpty) = true
  · exfalso
    unfold updateCharacterNotes at h
    rw [if_pos hid] at h
    simp at h
  · cases hfind : jsFind chars characterId with
    | none =>
        exfalso
        unfold updateCharacterNotes at h
        rw [if_neg hid, hfind] at h
        simp at h
    | some c0 =>
        cases saveThrows with
        | true =>
            exfalso
            unfold updateCharacterNotes at h
            rw [if_neg hid, hfind] at h
            simp at h
        | false =>
            unfold updateCharacterNotes
            rw [if_neg hid, hfind]
            have happ : (if !currentNotes.isEmpty then
                currentNotes ++ newInformation else newInformation) =
                currentNotes ++ newInformation := by
              cases currentNotes <;> simp
            simp only [happ, Bool.false_eq_true, if_false]
            exact ⟨setNotes c0 (currentNotes ++ newInformation),
              jsFind_updateFirst chars characterId _ c0 hfind, rfl⟩

theorem updateCharacterNotes_appends_witness :
    ∃ c, jsFind (updateCharacterNotes [⟨str "ava", none⟩] (str "ava")
        (str "old notes") (str " plus new") false).2 (str "ava") = some c ∧
      c.data = some ⟨some (str "old notes" ++ str " plus new")⟩ :=
  updateCharacterNotes_appends [⟨str "ava", none⟩] (str "ava")
    (str "old notes") (str " plus new") false (by decide)

/-- C2: a call to checkAndUpdateMemories while a cycle is in flight (the
processingMemory guard set) is a no-op — no summarization is performed and
all state, in particular the counter and the guard, keeps its value. -/
theorem checkAndUpdateMemories_reentrant_noop (settings : Settings)
    (ctx : Option Context) (summarizeResult : Except JsError (List Char))
    (now : List Char) (st : MMState) (h : st.processingMemory = true) :
    checkAndUpdateMemories settings ctx summarizeResult now st =
      ⟨st, false, none⟩ := by
  simp [checkAndUpdateMemories, h]

theorem checkAndUpdateMemories_reentrant_noop_witness :
    checkAndUpdateMemories exSettingsC1 (some exCtxC1) (.ok (str "summary"))
      (str "d") ⟨7, true⟩ = ⟨⟨7, true⟩, false, none⟩ :=
  checkAndUpdateMemories_reentrant_noop exSettingsC1 (some exCtxC1)
    (.ok (str "summary")) (str "d") ⟨7, true⟩ rfl

/-- C9: an invocation of checkAndUpdateMemories entered outside an
in-flight cycle always ends with the processingMemory guard false — the
finally-style release holds on the success, error and no-fire paths alike,
so a subsequent cycle can proceed. -/
theorem checkAndUpdateMemories_releases_guard (settings : Settings)
    (ctx : Option Context) (summarizeResult : Except JsError (List Char))
    (now : List Char) (st : MMState) (h : st.processingMemory = false) :
    (checkAndUpdateMemories settings ctx summarizeResult now st).state.processingMemory =
      false := by
  simp only [checkAndUpdateMemories]
  split
  · exact h
  · split
    · exact h
    · split
      · exact h
      · split
        · cases summarizeResult <;> rfl
        · exact h

theorem checkAndUpdateMemories_releases_guard_witness :
    (checkAndUpdateMemories exSettingsC1 (some exCtxC1)
      (.ok (str "a summary that is long enough")) (str "d")
      ⟨1, false⟩).state.processingMemory = false :=
  checkAndUpdateMemories_releases_guard exSettingsC1 (some exCtxC1)
    (.ok (str "a summary that is long enough")) (str "d") ⟨1, false⟩ rfl

/-- C1 fails on the code: with threshold 2, counter 1 and a failing
summarization call, a cycle fires (summarizeCalled is true) yet the
invocation completes with the counter at 2, not reset to 0 — the reset at
the end of the try block is skipped on the error path. -/
theorem checkAndUpdateMemories_error_keeps_counter :
    (checkAndUpdateMemories exSettingsC1 (some exCtxC1)
      (.error (.transport (str "down"))) (str "d")
      ⟨1, false⟩).summarizeCalled = true ∧
    (checkAndUpdateMemories exSettingsC1 (some exCtxC1)
      (.error (.transport (str "down"))) (str "d")
      ⟨1, false⟩).state.messageCounter = 2 :=
  ⟨rfl, rfl⟩

/-- C1 amended: for every cycle that fires, the counter is reset to 0 when
the cycle completes without error; when the summarization step fails, the
counter is not reset and keeps its incremented value. -/
theorem checkAndUpdateMemories_counter_reset (settings : Settings)
    (c : Context) (summarizeResult : Except JsError (List Char))
    (now : List Char) (st : MMState)
    (hflag : st.processingMemory = false) (hen : settings.enabled = true)
    (hchat : c.chat ≠ [])
    (hth : settings.messagesBeforeSummarize ≤ st.messageCounter + 1) :
    (checkAndUpdateMemories settings (some c) summarizeResult now st).summarizeCalled =
      true ∧
    (checkAndUpdateMemories settings (some c) summarizeResult now st).state.messageCounter =
      (match summarizeResult with
       | .ok _ => 0
       | .error _ => st.messageCounter + 1) := by
  have hchat2 : c.chat.isEmpty = false := by
    cases hc : c.chat with
    | nil => exact absurd hc hchat
    | cons a l => rfl
  cases summarizeResult <;>
    simp [checkAndUpdateMemories, hflag, hen, hchat2, hth]

theorem checkAndUpdateMemories_counter_reset_witness :
    (checkAndUpdateMemories exSettingsC1 (some exCtxC1)
      (.ok (str "a freshly made summary")) (str "d")
      ⟨1, false⟩).state.messageCounter = 0 :=
  (checkAndUpdateMemories_counter_reset exSettingsC1 exCtxC1
    (.ok (str "a freshly made summary")) (str "d") ⟨1, false⟩
    rfl rfl (by decide) (by decide)).2

end CMM
